import Mathlib

/-!
Verification of the DecisionOS decision-support engine.

The Python source is shallowly embedded: numeric values are modelled by `ℚ`
(Python floats, used here only through arithmetic, comparisons and rounding),
Python dictionaries by insertion-ordered association lists, and fallible code
by `Except`/`Option`.  Each definition mirrors one function of the source
(`engine/scoring.py`, `engine/readiness.py`, `engine/playbook.py`,
`engine/analytics.py`, `engine/storage.py`, `app.py`); theorems about those
definitions settle the specification claims.
-/

/-- Python `d.get(k, default)` over an insertion-ordered association list
modelling a `dict` (keys are unique by construction of the dict). -/
def pyGet {α : Type} (d : List (String × α)) (k : String) (dflt : α) : α :=
  match d.find? (fun p => p.1 == k) with
  | some p => p.2
  | none => dflt

/-- Python `rows[-limit:]` (for `limit > 0`): the suffix of at most `n`
elements. -/
def lastN {α : Type} (n : Nat) (l : List α) : List α :=
  l.drop (l.length - n)

/-- Python `round` to the nearest integer, halves to even (banker's
rounding). -/
def pyRound (q : ℚ) : ℤ :=
  if q - ⌊q⌋ < 1/2 then ⌊q⌋
  else if q - ⌊q⌋ > 1/2 then ⌊q⌋ + 1
  else if ⌊q⌋ % 2 = 0 then ⌊q⌋ else ⌊q⌋ + 1

/-- Python `round(x, 2)`. -/
def roundTo2 (q : ℚ) : ℚ :=
  (pyRound (q * 100) : ℚ) / 100

/-- Python `s.lower()` (over the character list, so that it is
kernel-computable). -/
def pyLower (s : String) : String :=
  ⟨s.data.map Char.toLower⟩

/-- Python `s.upper()`. -/
def pyUpper (s : String) : String :=
  ⟨s.data.map Char.toUpper⟩

/-- Python `s.strip()`. -/
def pyStrip (s : String) : String :=
  ⟨((s.data.dropWhile Char.isWhitespace).reverse.dropWhile Char.isWhitespace).reverse⟩

/-- Python `min` on integers (definitionally an `if`, so that concrete
readiness results reduce in the kernel). -/
def pyMin (a b : ℤ) : ℤ := if a ≤ b then a else b

/-- Python `max` on integers. -/
def pyMax (a b : ℤ) : ℤ := if a ≤ b then b else a

/-- A Python value as stored in a dynamically typed field: a number, a
string, or a non-numeric non-string value (e.g. `None`); values on which
`float()` succeeds are modelled by `num` (numeric strings are conflated
with numbers, which does not affect any claim below). -/
inductive PyVal where
  | num (q : ℚ)
  | str (s : String)
  | nul
deriving DecidableEq

/-- Python `float(v)`: raises on values that are not float-convertible. -/
def pyFloat : PyVal → Except String ℚ
  | .num q => .ok q
  | .str s => .error ("could not convert string to float: " ++ s)
  | .nul => .error "float() argument must be a string or a real number"

/-- Python `try: float(v) except: None`. -/
def tryFloat (v : PyVal) : Option ℚ :=
  match pyFloat v with
  | .ok q => some q
  | .error _ => none

/-! ## engine/scoring.py -/

/-- `engine/templates.py` dataclass `TemplateRule` (the variant used by the
scoring engine): weights is a dict dimension → weight, thresholds an ordered
list of (minimum score inclusive, label). -/
structure TemplateRule where
  template_id : String
  template_name : String
  dimensions : List String
  weights : List (String × ℚ)
  thresholds : List (ℚ × String)
deriving DecidableEq

/-- `clamp_score`: clamp to [0, 10]. -/
def clamp_score (score : ℚ) : ℚ :=
  max 0 (min 10 score)

/-- `compute_weighted_score`: sum of `clamp_score(scores.get(dim, 0.0)) *
rule.weights[dim]` over `rule.dimensions`, rounded to 2 decimals.  The Python
dict access `rule.weights[dim]` presumes every dimension has a weight (true
of every template the application constructs); a missing weight is modelled
as 0. -/
def compute_weighted_score (rule : TemplateRule) (scores : List (String × ℚ)) : ℚ :=
  roundTo2 (rule.dimensions.foldl
    (fun total dim => total + clamp_score (pyGet scores dim 0) * pyGet rule.weights dim 0) 0)

/-- The `for min_score, label in rule.thresholds` loop of
`determine_outcome`. -/
def scanThresholds (final_score : ℚ) : List (ℚ × String) → Option String
  | [] => none
  | (min_score, label) :: rest =>
      if final_score ≥ min_score then some label else scanThresholds final_score rest

/-- `determine_outcome`: first threshold whose minimum is met, else
`rule.thresholds[-1][1]` (`none` models the `IndexError` on an empty
threshold list). -/
def determine_outcome (rule : TemplateRule) (final_score : ℚ) : Option String :=
  match scanThresholds final_score rule.thresholds with
  | some label => some label
  | none => rule.thresholds.getLast?.map Prod.snd

/-- `confidence_band`. -/
def confidence_band (score : ℚ) : String :=
  if score ≥ 8 then "HIGH"
  else if score ≥ 6 then "MEDIUM"
  else "LOW"

/-! ## engine/templates.py — the built-in templates -/

/-- Built-in template `"go_no_go"`. -/
def go_no_go : TemplateRule :=
  { template_id := "go_no_go"
    template_name := "Go / No-Go Decision"
    dimensions := ["Value", "Feasibility", "Risk", "Alignment", "Urgency"]
    weights := [("Value", 1/4), ("Feasibility", 1/4), ("Risk", 1/5), ("Alignment", 1/5), ("Urgency", 1/10)]
    thresholds := [(15/2, "PROCEED"), (6, "REVIEW / REVISE"), (0, "DO NOT PROCEED")] }

/-- Built-in template `"risk_exposure"`. -/
def risk_exposure : TemplateRule :=
  { template_id := "risk_exposure"
    template_name := "Risk Exposure Assessment"
    dimensions := ["Financial Risk", "Operational Risk", "Legal/Compliance Risk", "Reputational Risk", "Control Readiness"]
    weights := [("Financial Risk", 3/10), ("Operational Risk", 1/4), ("Legal/Compliance Risk", 1/5), ("Reputational Risk", 3/20), ("Control Readiness", 1/10)]
    thresholds := [(15/2, "LOW RISK"), (6, "MODERATE RISK"), (0, "HIGH RISK")] }

/-- Built-in template `"change_impact"`. -/
def change_impact : TemplateRule :=
  { template_id := "change_impact"
    template_name := "Change Impact Decision"
    dimensions := ["Impact Value", "Change Complexity", "Team Readiness", "Risk of Resistance", "Reversibility"]
    weights := [("Impact Value", 3/10), ("Change Complexity", 1/4), ("Team Readiness", 1/5), ("Risk of Resistance", 3/20), ("Reversibility", 1/10)]
    thresholds := [(15/2, "SAFE TO IMPLEMENT"), (6, "IMPLEMENT WITH CAUTION"), (0, "HIGH IMPACT RISK")] }

/-- The `TEMPLATES` registry. -/
def TEMPLATES : List (String × TemplateRule) :=
  [("go_no_go", go_no_go), ("risk_exposure", risk_exposure), ("change_impact", change_impact)]

/-! ## Rounding bounds -/

theorem le_pyRound {a : ℤ} {q : ℚ} (h : (a : ℚ) ≤ q) : a ≤ pyRound q := by
  have hf : a ≤ ⌊q⌋ := Int.le_floor.mpr h
  unfold pyRound
  split_ifs <;> omega

theorem pyRound_le {b : ℤ} {q : ℚ} (h : q ≤ (b : ℚ)) : pyRound q ≤ b := by
  have hfb : ⌊q⌋ ≤ b := by
    have := Int.floor_mono h
    simpa using this
  unfold pyRound
  split_ifs with h1 h2 h3
  · exact hfb
  · have hq : (⌊q⌋ : ℚ) < q := by linarith
    have : ⌊q⌋ < b := by exact_mod_cast lt_of_lt_of_le hq h
    omega
  · exact hfb
  · have hq : (⌊q⌋ : ℚ) < q := by push_neg at h1; linarith
    have : ⌊q⌋ < b := by exact_mod_cast lt_of_lt_of_le hq h
    omega

theorem roundTo2_mem {q : ℚ} (h0 : 0 ≤ q) (h10 : q ≤ 10) :
    0 ≤ roundTo2 q ∧ roundTo2 q ≤ 10 := by
  have hlo : (0 : ℤ) ≤ pyRound (q * 100) := le_pyRound (by push_cast; linarith)
  have hhi : pyRound (q * 100) ≤ (1000 : ℤ) := pyRound_le (by push_cast; linarith)
  unfold roundTo2
  constructor
  · positivity
  · rw [div_le_iff₀ (by norm_num)]
    exact_mod_cast le_trans hhi (by norm_num)

theorem foldl_add_eq (f : String → ℚ) (l : List String) (a : ℚ) :
    l.foldl (fun t d => t + f d) a = a + (l.map f).sum := by
  induction l generalizing a with
  | nil => simp
  | cons hd tl ih => simp [ih, add_assoc]

theorem clamp_score_mem (q : ℚ) : 0 ≤ clamp_score q ∧ clamp_score q ≤ 10 := by
  unfold clamp_score
  constructor
  · exact le_max_left 0 _
  · exact max_le (by norm_num) (min_le_left 10 q)

theorem weighted_sum_bounds (dims : List String) (c w : String → ℚ)
    (hc : ∀ d, 0 ≤ c d ∧ c d ≤ 10) (hw : ∀ d ∈ dims, 0 ≤ w d) :
    0 ≤ (dims.map fun d => c d * w d).sum ∧
      (dims.map fun d => c d * w d).sum ≤ 10 * (dims.map w).sum := by
  induction dims with
  | nil => simp
  | cons hd tl ih =>
    have hhd : 0 ≤ w hd := hw hd (List.mem_cons_self hd tl)
    have htl := ih (fun d hd' => hw d (List.mem_cons_of_mem _ hd'))
    have h1 : 0 ≤ c hd * w hd := mul_nonneg (hc hd).1 hhd
    have h2 : c hd * w hd ≤ 10 * w hd :=
      mul_le_mul_of_nonneg_right (hc hd).2 hhd
    constructor
    · simpa using add_nonneg h1 htl.1
    · simp only [List.map_cons, List.sum_cons]
      linarith [htl.2]

/-! ## C1 — range of `compute_weighted_score` -/

/-- A template as the template editor in `app.py` can create it: one weight
input per dimension, default value 1.0 (weights are not required to sum
to 1). -/
def c1BadRule : TemplateRule :=
  { template_id := "my_template"
    template_name := "My Decision Template"
    dimensions := ["Value", "Feasibility", "Risk", "Urgency"]
    weights := [("Value", 1), ("Feasibility", 1), ("Risk", 1), ("Urgency", 1)]
    thresholds := [(8, "GO"), (6, "REVIEW/REVISE"), (0, "NO-GO")] }

def c1BadScores : List (String × ℚ) :=
  [("Value", 10), ("Feasibility", 10), ("Risk", 10), ("Urgency", 10)]

/-- C1 (counterexample): the claim fails as stated — for a template whose
weights do not sum to at most 1 (such as one authored with the default
weight 1.0 per dimension), `compute_weighted_score` leaves [0, 10]. -/
theorem c1_counterexample :
    ¬ (∀ (rule : TemplateRule) (scores : List (String × ℚ)),
        0 ≤ compute_weighted_score rule scores ∧ compute_weighted_score rule scores ≤ 10) := by
  intro h
  have h2 := (h c1BadRule c1BadScores).2
  have he : compute_weighted_score c1BadRule c1BadScores = 40 := by
    have hv : pyGet c1BadScores "Value" (0 : ℚ) = 10 := rfl
    have hf : pyGet c1BadScores "Feasibility" (0 : ℚ) = 10 := rfl
    have hr : pyGet c1BadScores "Risk" (0 : ℚ) = 10 := rfl
    have hu : pyGet c1BadScores "Urgency" (0 : ℚ) = 10 := rfl
    have wv : pyGet c1BadRule.weights "Value" (0 : ℚ) = 1 := rfl
    have wf : pyGet c1BadRule.weights "Feasibility" (0 : ℚ) = 1 := rfl
    have wr : pyGet c1BadRule.weights "Risk" (0 : ℚ) = 1 := rfl
    have wu : pyGet c1BadRule.weights "Urgency" (0 : ℚ) = 1 := rfl
    show roundTo2 _ = 40
    rw [show c1BadRule.dimensions = ["Value", "Feasibility", "Risk", "Urgency"] from rfl]
    simp only [List.foldl, hv, hf, hr, hu, wv, wf, wr, wu]
    norm_num [clamp_score, roundTo2, pyRound]
  rw [he] at h2
  norm_num at h2

/-- C1 (amended): for every template whose weights are nonnegative and sum
to at most 1 over its dimensions — as all built-in templates do — and every
score mapping (scores outside [0,10] clamped, missing dimensions defaulting
to 0), `compute_weighted_score` returns a value in [0, 10]. -/
theorem c1_weighted_score_in_range (rule : TemplateRule) (scores : List (String × ℚ))
    (hw : ∀ d ∈ rule.dimensions, 0 ≤ pyGet rule.weights d 0)
    (hsum : (rule.dimensions.map fun d => pyGet rule.weights d 0).sum ≤ 1) :
    0 ≤ compute_weighted_score rule scores ∧ compute_weighted_score rule scores ≤ 10 := by
  unfold compute_weighted_score
  rw [foldl_add_eq (fun d => clamp_score (pyGet scores d 0) * pyGet rule.weights d 0)]
  have hb := weighted_sum_bounds rule.dimensions
    (fun d => clamp_score (pyGet scores d 0)) (fun d => pyGet rule.weights d 0)
    (fun d => clamp_score_mem _) hw
  have hw10 : 10 * (rule.dimensions.map fun d => pyGet rule.weights d 0).sum ≤ 10 := by
    linarith
  exact roundTo2_mem (by simpa using hb.1) (by simp only [zero_add]; linarith [hb.2])

/-- C1 (witness): the amended theorem applied to the built-in `go_no_go`
template with a concrete score mapping. -/
theorem c1_witness :
    0 ≤ compute_weighted_score go_no_go [("Value", 8), ("Feasibility", 7)] ∧
      compute_weighted_score go_no_go [("Value", 8), ("Feasibility", 7)] ≤ 10 := by
  refine c1_weighted_score_in_range go_no_go _ ?_ ?_
  · intro d hd
    rw [show go_no_go.dimensions = ["Value", "Feasibility", "Risk", "Alignment", "Urgency"] from rfl] at hd
    fin_cases hd
    · rw [show pyGet go_no_go.weights "Value" (0:ℚ) = 1/4 from rfl]; norm_num
    · rw [show pyGet go_no_go.weights "Feasibility" (0:ℚ) = 1/4 from rfl]; norm_num
    · rw [show pyGet go_no_go.weights "Risk" (0:ℚ) = 1/5 from rfl]; norm_num
    · rw [show pyGet go_no_go.weights "Alignment" (0:ℚ) = 1/5 from rfl]; norm_num
    · rw [show pyGet go_no_go.weights "Urgency" (0:ℚ) = 1/10 from rfl]; norm_num
  · norm_num [show go_no_go.dimensions = ["Value", "Feasibility", "Risk", "Alignment", "Urgency"] from rfl,
      show pyGet go_no_go.weights "Value" (0:ℚ) = 1/4 from rfl,
      show pyGet go_no_go.weights "Feasibility" (0:ℚ) = 1/4 from rfl,
      show pyGet go_no_go.weights "Risk" (0:ℚ) = 1/5 from rfl,
      show pyGet go_no_go.weights "Alignment" (0:ℚ) = 1/5 from rfl,
      show pyGet go_no_go.weights "Urgency" (0:ℚ) = 1/10 from rfl]

/-! ## C4 — `determine_outcome` against the spec wording -/

/-- Modelled from the spec wording (not the code): the label of the first
threshold entry, in authored order, whose minimum is ≤ the final score; if
no entry matches, the last entry's label as fallback. -/
def outcomeSpecLabel (rule : TemplateRule) (final_score : ℚ) : String :=
  match rule.thresholds.find? (fun p => decide (p.1 ≤ final_score)) with
  | some p => p.2
  | none => (rule.thresholds.getLastD (0, "")).2

theorem scanThresholds_eq_find (final_score : ℚ) (l : List (ℚ × String)) :
    scanThresholds final_score l =
      (l.find? (fun p => decide (p.1 ≤ final_score))).map Prod.snd := by
  induction l with
  | nil => rfl
  | cons hd tl ih =>
    obtain ⟨m, lab⟩ := hd
    by_cases h : m ≤ final_score
    · simp [scanThresholds, List.find?, ge_iff_le, h]
    · simp [scanThresholds, List.find?, ge_iff_le, h, ih]

/-- C4: for every template with a non-empty threshold list and every final
score, `determine_outcome` returns exactly one label — the label of the
first threshold entry (in authored order) whose minimum is ≤ the score, or
the last entry's label as fallback. -/
theorem c4_determine_outcome_spec (rule : TemplateRule) (final_score : ℚ)
    (h : rule.thresholds ≠ []) :
    determine_outcome rule final_score = some (outcomeSpecLabel rule final_score) := by
  unfold determine_outcome outcomeSpecLabel
  rw [scanThresholds_eq_find]
  cases hf : rule.thresholds.find? (fun p => decide (p.1 ≤ final_score)) with
  | some p => simp
  | none =>
    simp only [Option.map_none']
    rw [List.getLastD_eq_getLast?]
    cases hl : rule.thresholds.getLast? with
    | some p => simp
    | none => exact absurd (List.getLast?_eq_none_iff.mp hl) h

/-- C4 (witness): the theorem applied to the built-in `go_no_go` template at
the spec's worked example score 7.25, where the matching entry is the
second one, labelled "REVIEW / REVISE". -/
theorem c4_witness :
    determine_outcome go_no_go (29/4) = some (outcomeSpecLabel go_no_go (29/4)) ∧
      determine_outcome go_no_go (29/4) = some "REVIEW / REVISE" := by
  constructor
  · exact c4_determine_outcome_spec go_no_go (29/4) (by simp [go_no_go])
  · norm_num [determine_outcome, scanThresholds,
      show go_no_go.thresholds = [(15/2, "PROCEED"), (6, "REVIEW / REVISE"), (0, "DO NOT PROCEED")] from rfl]

/-! ## engine/readiness.py -/

/-- Dataclass `ReadinessResult`. -/
structure ReadinessResult where
  score : ℤ
  status : String
  min_required : ℤ
  issues : List String
  blockers : List String
deriving DecidableEq

/-- `_empty` applied to a string field. -/
def emptyStr (x : String) : Bool :=
  pyStrip x == ""

/-- `_empty` applied to a list field (a list counts as empty when every
element is whitespace-only). -/
def emptyList (l : List String) : Bool :=
  (l.filter (fun a => !(pyStrip a == ""))).isEmpty

/-- Python `int(q)`: truncation toward zero. -/
def pyTrunc (q : ℚ) : ℤ :=
  if 0 ≤ q then ⌊q⌋ else ⌈q⌉

/-- `_confidence_to_number`: numbers are truncated with `int`, strings are
matched case-insensitively, anything else (e.g. `None`) falls through the
string match to the default 70. -/
def confidence_to_number : PyVal → ℤ
  | .num q => pyTrunc q
  | .str s =>
      let c := pyLower (pyStrip s)
      if c == "high" || c == "h" then 85
      else if c == "medium" || c == "med" || c == "m" then 70
      else if c == "low" || c == "l" then 55
      else 70
  | .nul => 70

/-- The decision dictionary as `calculate_decision_readiness` reads it: each
field carries the value of the corresponding `decision.get(...)` (with its
default when the key is absent); `weights = none` models a value that is
not a dict. -/
structure DecisionInput where
  owner : String
  decision_type : String
  decision_class : String
  stakeholders : List String
  assumptions : List String
  risks : List String
  confidence : PyVal
  weights : Option (List (String × PyVal))
  responsibility_confirmed : Bool
deriving DecidableEq

/-- The list comprehension `[k for k, v in weights.items() if float(v) <= 0]`:
`float(v)` raises on the first non-convertible value, left to right. -/
def weightsBad : List (String × PyVal) → Except String (List String)
  | [] => .ok []
  | (k, v) :: rest => do
      let fv ← pyFloat v
      let bad ← weightsBad rest
      pure (if fv ≤ 0 then k :: bad else bad)

/-- Pillar 1 of `calculate_decision_readiness` up to the weights-validity
check: the only fallible step of the function (the `float(v)` conversion
propagates an exception). -/
def blockersStep (decision : DecisionInput) : Except String (List String) :=
  let blockers : List String :=
    if emptyStr decision.owner then
      ["Decision owner is missing (accountability not defined)."]
    else []
  match decision.weights with
  | none => .ok (blockers ++ ["Template weights are missing/invalid (cannot evaluate reliably)."])
  | some w =>
      if w.isEmpty then
        .ok (blockers ++ ["Template weights are missing/invalid (cannot evaluate reliably)."])
      else
        (weightsBad w).map fun bad =>
          if bad.isEmpty then blockers
          else blockers ++ ["Invalid weights (<=0) found for: " ++ String.intercalate ", " bad]

/-- The remainder of `calculate_decision_readiness` after the weights check
(pure).  The source's `if/elif` on the decision class is modelled as two
independent conditions, which is equivalent because `"One-way"` and
`"Two-way"` are mutually exclusive. -/
def readinessFinish (decision : DecisionInput) (blockers1 : List String) : ReadinessResult :=
  let ea := emptyList decision.assumptions
  let es := emptyList decision.stakeholders
  let er := emptyList decision.risks
  let confidence := confidence_to_number decision.confidence
  let score1 : ℤ := (100 - (if ea then 10 else 0)) - (if es then 5 else 0)
  let issues1 : List String :=
    (if ea then ["Key assumptions are not documented."] else []) ++
      (if es then ["Stakeholders not listed (visibility may be incomplete)."] else [])
  let score2 := if !blockers1.isEmpty then pyMin score1 50 else score1
  let oneWay := decision.decision_class == "One-way" && er
  let twoWay := decision.decision_class == "Two-way" && er
  let blockers2 := blockers1 ++ (if oneWay then ["One-way decisions require explicit risks/unknowns."] else [])
  let score3 := score2 - (if twoWay then 10 else 0)
  let issues2 := issues1 ++ (if twoWay then ["Consider documenting at least one risk/unknown."] else [])
  let over1 := decide (80 ≤ confidence) && er
  let score4 := score3 - (if over1 then 20 else 0)
  let issues3 := issues2 ++ (if over1 then ["High confidence without documented risks suggests overconfidence."] else [])
  let over2 := decide (70 ≤ confidence) && ea
  let score5 := score4 - (if over2 then 10 else 0)
  let issues4 := issues3 ++ (if over2 then ["Confidence should be backed by explicit assumptions."] else [])
  let min_required : ℤ :=
    if decision.decision_type == "Strategic" && decision.decision_class == "One-way" then 75 else 60
  let blockers3 := blockers2 ++
    (if decision.responsibility_confirmed then [] else ["Accountability confirmation is required to approve."])
  let score6 := pyMax 0 (pyMin score5 100)
  let status :=
    if !blockers3.isEmpty || score6 < min_required then "BLOCK"
    else if score6 < 75 then "REVIEW"
    else "APPROVE"
  ⟨score6, status, min_required, issues4, blockers3⟩

/-- `calculate_decision_readiness`. -/
def calculate_decision_readiness (decision : DecisionInput) : Except String ReadinessResult :=
  (blockersStep decision).map (readinessFinish decision)

/-! ## C2 — failure semantics of `calculate_decision_readiness` -/

/-- A decision dictionary whose weights mapping carries a non-numeric value:
`float(None)` raises inside the weights-validity check. -/
def c2BadInput : DecisionInput :=
  { owner := "Alice"
    decision_type := "Strategic"
    decision_class := "Two-way"
    stakeholders := ["Bob"]
    assumptions := ["assumption"]
    risks := ["risk"]
    confidence := .str "Medium"
    weights := some [("Value", .nul)]
    responsibility_confirmed := true }

/-- `True` when `calculate_decision_readiness` returns a result rather than
propagating an exception. -/
def returnsResult (decision : DecisionInput) : Bool :=
  match calculate_decision_readiness decision with
  | .ok _ => true
  | .error _ => false

/-- The blockers of the returned `ReadinessResult` (empty if the call
raised). -/
def readinessBlockers (decision : DecisionInput) : List String :=
  match calculate_decision_readiness decision with
  | .ok r => r.blockers
  | .error _ => []

/-- The status of the returned `ReadinessResult` (empty if the call
raised). -/
def readinessStatus (decision : DecisionInput) : String :=
  match calculate_decision_readiness decision with
  | .ok r => r.status
  | .error _ => ""

/-- The score of the returned `ReadinessResult` (0 if the call raised). -/
def readinessScore (decision : DecisionInput) : ℤ :=
  match calculate_decision_readiness decision with
  | .ok r => r.score
  | .error _ => 0

/-- C2 (counterexample): the claim fails as stated — on a decision input
whose weights mapping contains a non-numeric value, the function raises
(propagates an exception) instead of returning a `ReadinessResult`. -/
theorem c2_counterexample :
    ¬ (∀ decision : DecisionInput, returnsResult decision = true) := by
  intro h
  have hr := h c2BadInput
  have he : returnsResult c2BadInput = false := rfl
  rw [he] at hr
  exact Bool.noConfusion hr

theorem weightsBad_isOk (l : List (String × PyVal))
    (h : ∀ kv ∈ l, ∃ q, kv.2 = PyVal.num q) : ∃ bad, weightsBad l = .ok bad := by
  induction l with
  | nil => exact ⟨[], rfl⟩
  | cons hd tl ih =>
    obtain ⟨q, hq⟩ := h hd (List.mem_cons_self hd tl)
    obtain ⟨bad, hbad⟩ := ih (fun kv hkv => h kv (List.mem_cons_of_mem _ hkv))
    refine ⟨if q ≤ 0 then hd.1 :: bad else bad, ?_⟩
    obtain ⟨k, v⟩ := hd
    simp only at hq
    subst hq
    simp [weightsBad, pyFloat, hbad, Bind.bind, Except.bind, Pure.pure, Except.pure]

theorem readiness_ok_of_numeric (decision : DecisionInput)
    (hw : ∀ l, decision.weights = some l → ∀ kv ∈ l, ∃ q, kv.2 = PyVal.num q) :
    ∃ b, blockersStep decision = .ok b := by
  unfold blockersStep
  cases hwopt : decision.weights with
  | none => exact ⟨_, rfl⟩
  | some w =>
    by_cases hemp : w.isEmpty
    · simp only [hemp, if_true]
      exact ⟨_, rfl⟩
    · obtain ⟨bad, hbad⟩ := weightsBad_isOk w (hw w hwopt)
      simp only [hemp, if_false, Bool.false_eq_true, hbad, Except.map]
      exact ⟨_, rfl⟩

theorem readiness_eq_of_numeric (decision : DecisionInput)
    (hw : ∀ l, decision.weights = some l → ∀ kv ∈ l, ∃ q, kv.2 = PyVal.num q) :
    ∃ b, calculate_decision_readiness decision = .ok (readinessFinish decision b) := by
  obtain ⟨b, hb⟩ := readiness_ok_of_numeric decision hw
  exact ⟨b, by rw [calculate_decision_readiness, hb]; rfl⟩

/-- C2 (amended): `calculate_decision_readiness` never raises provided every
value of the weights mapping is numeric (a non-dict or empty weights value
is handled as a blocker, not an exception); with a non-numeric weight value
the `float` conversion propagates an exception. -/
theorem c2_no_raise_on_numeric_weights (decision : DecisionInput)
    (hw : ∀ l, decision.weights = some l → ∀ kv ∈ l, ∃ q, kv.2 = PyVal.num q) :
    returnsResult decision = true := by
  obtain ⟨b, hb⟩ := readiness_eq_of_numeric decision hw
  rw [returnsResult, hb]

/-- C2 (witness): the amended theorem at a concrete input with numeric
weights. -/
theorem c2_witness :
    returnsResult
      { owner := "Alice"
        decision_type := "Strategic"
        decision_class := "Two-way"
        stakeholders := ["Bob"]
        assumptions := ["assumption"]
        risks := ["risk"]
        confidence := .str "Medium"
        weights := some [("Value", .num 1), ("Risk", .num (1/2))]
        responsibility_confirmed := true } = true := by
  refine c2_no_raise_on_numeric_weights _ ?_
  intro l hl kv hkv
  cases hl
  simp only [List.mem_cons, List.not_mem_nil, or_false] at hkv
  rcases hkv with rfl | rfl
  · exact ⟨1, rfl⟩
  · exact ⟨1/2, rfl⟩

/-! ## C3 — the accountability blocker and the score cap -/

theorem readinessFinish_accountability (decision : DecisionInput) (b : List String)
    (hflag : decision.responsibility_confirmed = false) :
    "Accountability confirmation is required to approve." ∈ (readinessFinish decision b).blockers ∧
      (readinessFinish decision b).status = "BLOCK" := by
  unfold readinessFinish
  simp only [hflag, Bool.false_eq_true, if_false]
  constructor
  · exact List.mem_append_right _ (List.mem_singleton.mpr rfl)
  · simp

/-- An input whose only readiness defect is the unconfirmed accountability
flag: owner present, valid weights, assumptions, stakeholders and risks all
documented, a two-way decision with medium confidence. -/
def c3Input : DecisionInput :=
  { owner := "Alice"
    decision_type := "Strategic"
    decision_class := "Two-way"
    stakeholders := ["Bob"]
    assumptions := ["Pricing is below market"]
    risks := ["Churn impact"]
    confidence := .str "Medium"
    weights := some [("Value", .num 1)]
    responsibility_confirmed := false }

/-- C3 (counterexample): the claim fails as stated — with the accountability
flag false the blocker is added, but because the blocker is appended only
after the score-cap step, the returned score is 100, not at most 50. -/
theorem c3_counterexample :
    c3Input.responsibility_confirmed = false ∧
      "Accountability confirmation is required to approve." ∈ readinessBlockers c3Input ∧
      readinessScore c3Input = 100 ∧
      ¬ ((100 : ℤ) ≤ 50) := by
  refine ⟨rfl, ?_, rfl, by norm_num⟩
  rw [show readinessBlockers c3Input =
    ["Accountability confirmation is required to approve."] from rfl]
  exact List.mem_singleton.mpr rfl

/-- C3 (amended): for every decision input whose accountability-confirmed
flag is false (and whose weight values are numeric, so that the function
returns), `calculate_decision_readiness` adds the accountability blocker and
returns status BLOCK; the readiness score is not capped at 50 by this
blocker, because it is appended after the cap step (step 5 caps only on
blockers found before it). -/
theorem c3_accountability_blocks (decision : DecisionInput)
    (hflag : decision.responsibility_confirmed = false)
    (hw : ∀ l, decision.weights = some l → ∀ kv ∈ l, ∃ q, kv.2 = PyVal.num q) :
    "Accountability confirmation is required to approve." ∈ readinessBlockers decision ∧
      readinessStatus decision = "BLOCK" := by
  obtain ⟨b, hb⟩ := readiness_eq_of_numeric decision hw
  have h := readinessFinish_accountability decision b hflag
  rw [readinessBlockers, readinessStatus, hb]
  exact h

/-- C3 (witness): the amended theorem at the concrete input `c3Input`. -/
theorem c3_witness :
    "Accountability confirmation is required to approve." ∈ readinessBlockers c3Input ∧
      readinessStatus c3Input = "BLOCK" := by
  refine c3_accountability_blocks c3Input rfl ?_
  intro l hl kv hkv
  cases hl
  simp only [List.mem_cons, List.not_mem_nil, or_false] at hkv
  subst hkv
  exact ⟨1, rfl⟩

/-! ## engine/playbook.py -/

/-- A single quote character (ASCII 39). -/
def sqChar : Char := Char.ofNat 39

/-- Wrap a string in single quotes. -/
def inQuotes (s : String) : String :=
  String.singleton sqChar ++ s ++ String.singleton sqChar

/-- Stable insertion of `x` into an ascending-by-key list: `x` is placed
before the first element of strictly or equally larger key, which makes the
resulting sort stable like Python's `sorted`. -/
def pyInsert {α : Type} (key : α → ℚ) (x : α) : List α → List α
  | [] => [x]
  | y :: ys => if key x ≤ key y then x :: y :: ys else y :: pyInsert key x ys

/-- Python `sorted(l, key=key)`: stable ascending sort. -/
def pySortByKey {α : Type} (key : α → ℚ) (l : List α) : List α :=
  l.foldr (pyInsert key) []

/-- Python `d.get(k)` (no default): `none` when the key is absent. -/
def pyGetOpt {α : Type} (d : List (String × α)) (k : String) : Option α :=
  (d.find? (fun p => p.1 == k)).map (fun p => p.2)

/-- The explanation object produced by `explain_decision`
(`engine/explain.py`), as read by the playbook and the executive
recommendation. -/
structure DimScore where
  dimension : String
  score : ℚ
deriving DecidableEq

structure DimWeighted where
  dimension : String
  weighted : ℚ
deriving DecidableEq

structure Explanation where
  lowest_dimensions : List DimScore
  highest_dimensions : List DimScore
  top_positive_contributors : List DimWeighted
  top_negative_contributors : List DimWeighted
deriving DecidableEq

/-- The `DEFAULT_ACTIONS` catalog. -/
def DEFAULT_ACTIONS : List (String × List String) :=
  [ ("Value",
      [ "Clarify measurable business impact (revenue, cost, time saved)."
      , "Validate customer pain with 5–10 interviews."
      , "Define success metrics and a 30-day experiment." ])
  , ("Feasibility",
      [ "Break into milestones and estimate effort for each."
      , "Identify required skills/tools and fill gaps."
      , "Create a small prototype to reduce uncertainty." ])
  , ("Risk",
      [ "List top 5 risks (technical, legal, market, delivery)."
      , "Add mitigations and owners for each risk."
      , "Run a pre-mortem: why might this fail?" ])
  , ("Urgency",
      [ "Define deadline and what happens if delayed."
      , "Confirm stakeholder priority against other work."
      , "Set a decision date + fast validation plan." ]) ]

/-- The generic fallback action list for an unrecognized dimension. -/
def fallbackActions : List String :=
  [ "Define what " ++ inQuotes "good" ++ " looks like for this dimension."
  , "Collect evidence to increase confidence."
  , "Create a small test to improve this score." ]

/-- The generic risk flag appended when the outcome indicates risk. -/
def genericRiskFlag : String :=
  "Outcome indicates risk — treat as not approved until fixes are done."

structure ActionEntry where
  dimension : String
  score : Option ℚ
  recommended_actions : List String
deriving DecidableEq

structure Playbook where
  summary : String
  focus_dimensions : List String
  actions : List ActionEntry
  flags : List String
  checklist : List String
deriving DecidableEq

/-- `build_playbook`. -/
def build_playbook (rule : TemplateRule) (scores : List (String × ℚ))
    (final_score : ℚ) (outcome : String) (explanation : Explanation) : Playbook :=
  let _ := rule
  let _ := final_score
  let lows := explanation.lowest_dimensions
  let low_dims :=
    if !lows.isEmpty then (lows.map (fun x => x.dimension)).take 3
    else ((pySortByKey (fun p => p.2) scores).map (fun p => p.1)).take 3
  let actions := low_dims.map (fun d =>
    { dimension := d
      score := pyGetOpt scores d
      recommended_actions := pyGet DEFAULT_ACTIONS d fallbackActions })
  let flags :=
    (scores.filter (fun p => p.2 ≤ 3)).map (fun p =>
      "Very low score detected in " ++ inQuotes p.1 ++ " (" ++ toString p.2 ++ ").")
  let flags := flags ++
    (if outcome == "NO-GO" || outcome == "REVIEW / REVISE" then [genericRiskFlag] else [])
  { summary := "Top focus areas: " ++ String.intercalate ", " low_dims
    focus_dimensions := low_dims
    actions := actions
    flags := flags
    checklist :=
      [ "Confirm decision owner + stakeholders"
      , "Write assumptions explicitly"
      , "Define success metrics"
      , "Run quick validation test"
      , "Re-score after fixes" ] }

/-! ## C7 — the generic risk flag -/

def c7Scores : List (String × ℚ) :=
  [("Value", 5), ("Feasibility", 5), ("Risk", 5), ("Alignment", 5), ("Urgency", 5)]

def c7Expl : Explanation :=
  { lowest_dimensions := [⟨"Value", 5⟩, ⟨"Feasibility", 5⟩]
    highest_dimensions := [⟨"Value", 5⟩, ⟨"Feasibility", 5⟩]
    top_positive_contributors := [⟨"Value", 5/4⟩, ⟨"Feasibility", 5/4⟩]
    top_negative_contributors := [⟨"Urgency", 1/2⟩, ⟨"Risk", 1⟩] }

/-- C7 (counterexample): the claim fails as stated — `"DO NOT PROCEED"`, the
built-in rejection label of the `go_no_go` template, is not in the list
`["NO-GO", "REVIEW / REVISE"]` that `build_playbook` checks, so no generic
risk flag is emitted for it. -/
theorem c7_counterexample :
    ((0 : ℚ), "DO NOT PROCEED") ∈ go_no_go.thresholds ∧
      genericRiskFlag ∉ (build_playbook go_no_go c7Scores 5 "DO NOT PROCEED" c7Expl).flags := by
  constructor
  · rw [show go_no_go.thresholds =
      [(15/2, "PROCEED"), (6, "REVIEW / REVISE"), (0, "DO NOT PROCEED")] from rfl]
    exact List.mem_cons_of_mem _ (List.mem_cons_of_mem _ (List.mem_singleton.mpr rfl))
  · rw [show (build_playbook go_no_go c7Scores 5 "DO NOT PROCEED" c7Expl).flags = [] from rfl]
    exact List.not_mem_nil _

/-- C7 (amended): whenever `build_playbook` is given an outcome label equal
to `"NO-GO"` or `"REVIEW / REVISE"` — the only two labels its rejection
check recognizes; the built-in rejection label `"DO NOT PROCEED"` is not
among them — the returned flags list contains the generic risk flag marking
the decision as not approved until fixes are done. -/
theorem c7_generic_flag (rule : TemplateRule) (scores : List (String × ℚ))
    (final_score : ℚ) (outcome : String) (explanation : Explanation)
    (h : outcome = "NO-GO" ∨ outcome = "REVIEW / REVISE") :
    genericRiskFlag ∈ (build_playbook rule scores final_score outcome explanation).flags := by
  unfold build_playbook
  rcases h with rfl | rfl <;>
    exact List.mem_append_right _ (List.mem_singleton.mpr rfl)

/-- C7 (witness): the amended theorem at the outcome `"REVIEW / REVISE"`
with concrete template, scores and explanation. -/
theorem c7_witness :
    genericRiskFlag ∈ (build_playbook go_no_go c7Scores 5 "REVIEW / REVISE" c7Expl).flags :=
  c7_generic_flag go_no_go c7Scores 5 "REVIEW / REVISE" c7Expl (Or.inr rfl)

/-! ## app.py — build_executive_recommendation -/

/-- The scenario stress test object as later code reads it (only its
`spread` entry is consumed). -/
structure Sst where
  spread : Option PyVal
deriving DecidableEq

/-- Python `str(v)` / f-string interpolation of a stored value (the exact
numeric rendering is irrelevant to every claim below). -/
def pyStr : PyVal → String
  | .num q => toString q
  | .str s => s
  | .nul => "None"

structure ExecRec where
  headline : String
  tone : String
  summary : String
  score_line : String
  rationale_positive : List String
  rationale_negative : List String
  next_steps_7d : List String
  risk_flags : List String
  stress_note : String
deriving DecidableEq

/-- `build_executive_recommendation` (`app.py`).  The `if/elif/else` chain
assigning headline, tone and summary is modelled as three selections over
the same conditions.  `explanation`, `playbook` and `sst` may be `None`
(`(x or {})` in the source). -/
def build_executive_recommendation (outcome : String) (final_score : ℚ)
    (confidence : String) (readiness : ReadinessResult)
    (explanation : Option Explanation) (playbook : Option Playbook)
    (sst : Option Sst) : ExecRec :=
  let headline :=
    if outcome == "GO" then "Recommendation: Proceed (GO)"
    else if outcome == "REVIEW" then "Recommendation: Proceed with revisions (REVIEW)"
    else "Recommendation: Do not proceed (NO-GO)"
  let tone :=
    if outcome == "GO" then "good"
    else if outcome == "REVIEW" then "warn"
    else "bad"
  let summary :=
    if outcome == "GO" then "Approve and execute with clear owners, milestones, and risk controls."
    else if outcome == "REVIEW" then "Move forward only after addressing the key blockers and tightening assumptions."
    else "Stop or redesign the decision. Current risk / feasibility profile is not acceptable."
  let pos := (match explanation with
    | some e => e.top_positive_contributors
    | none => []).take 3
  let neg := (match explanation with
    | some e => e.top_negative_contributors
    | none => []).take 3
  let rationale_pos := (pos.filter (fun p => !(p.dimension == ""))).map
    (fun p => p.dimension ++ ": strong signal (" ++ toString p.weighted ++ ")")
  let rationale_neg := (neg.filter (fun p => !(p.dimension == ""))).map
    (fun p => p.dimension ++ ": drag / risk (" ++ toString p.weighted ++ ")")
  let actions := (match playbook with
    | some pb => pb.actions
    | none => []).take 3
  let next_steps_7d :=
    (actions.filter (fun a => !(a.dimension == "") && !(a.recommended_actions.take 2).isEmpty)).map
      (fun a => a.dimension ++ ": " ++ (a.recommended_actions.take 2).headD "")
  let flags := match playbook with
    | some pb => pb.flags
    | none => []
  let spread := match sst with
    | some s => s.spread
    | none => none
  { headline := headline
    tone := tone
    summary := summary
    score_line := "Final score: " ++ toString final_score ++ " / 10 • Confidence: " ++ confidence ++
      " • Readiness: " ++ toString readiness.score ++ "% (" ++ readiness.status ++ ")"
    rationale_positive := rationale_pos
    rationale_negative := rationale_neg
    next_steps_7d := next_steps_7d
    risk_flags := if !flags.isEmpty then flags.take 6 else []
    stress_note := match spread with
      | some v => "Scenario spread (Best–Worst): " ++ pyStr v
      | none => "" }

/-! ## C9 — every outcome other than "GO"/"REVIEW" maps to NO-GO -/

/-- C9: `build_executive_recommendation` maps every outcome string other
than exactly `"GO"` or `"REVIEW"` — in particular the built-in success
label `"PROCEED"` produced by the scoring templates — to the
"Recommendation: Do not proceed (NO-GO)" headline with tone `"bad"`. -/
theorem c9_other_outcomes_map_to_nogo (outcome : String) (final_score : ℚ)
    (confidence : String) (readiness : ReadinessResult)
    (explanation : Option Explanation) (playbook : Option Playbook) (sst : Option Sst)
    (h1 : outcome ≠ "GO") (h2 : outcome ≠ "REVIEW") :
    (build_executive_recommendation outcome final_score confidence readiness
        explanation playbook sst).headline = "Recommendation: Do not proceed (NO-GO)" ∧
      (build_executive_recommendation outcome final_score confidence readiness
        explanation playbook sst).tone = "bad" := by
  have hb1 : (outcome == "GO") = false := beq_eq_false_iff_ne.mpr h1
  have hb2 : (outcome == "REVIEW") = false := beq_eq_false_iff_ne.mpr h2
  unfold build_executive_recommendation
  simp [hb1, hb2]

/-- C9 (witness): the theorem applied at the built-in success label
`"PROCEED"`, which `determine_outcome` produces for a `go_no_go` evaluation
scoring 8.0. -/
theorem c9_witness :
    (build_executive_recommendation "PROCEED" 8 "HIGH" ⟨100, "APPROVE", 60, [], []⟩
        none none none).headline = "Recommendation: Do not proceed (NO-GO)" ∧
      (build_executive_recommendation "PROCEED" 8 "HIGH" ⟨100, "APPROVE", 60, [], []⟩
        none none none).tone = "bad" ∧
      determine_outcome go_no_go 8 = some "PROCEED" := by
  have h := c9_other_outcomes_map_to_nogo "PROCEED" 8 "HIGH" ⟨100, "APPROVE", 60, [], []⟩
    none none none (by decide) (by decide)
  refine ⟨h.1, h.2, ?_⟩
  norm_num [determine_outcome, scanThresholds,
    show go_no_go.thresholds = [(15/2, "PROCEED"), (6, "REVIEW / REVISE"), (0, "DO NOT PROCEED")] from rfl]

/-! ## Decision records (the JSON objects of the history store) -/

/-- The `follow_up` sub-object. -/
structure FollowUp where
  outcome : Option String
  notes : Option String
  updated_at_utc : Option String
deriving DecidableEq

/-- A decision record as stored in the history file: one JSON object whose
keys may each be absent (`Option`).  `rest` carries every key not read by
the functions modelled here; all of them pass through those functions
untouched. -/
structure DecisionRecord where
  decision_id : Option String
  title : Option String
  schema_version : Option ℤ
  assumptions : Option (List String)
  unknowns : Option (List String)
  assumptions_notes : Option String
  unknowns_notes : Option String
  scenario_stress_test : Option Sst
  decision_type : Option String
  decision_owner : Option String
  stakeholders : Option (List String)
  review_date : Option String
  follow_up : Option FollowUp
  outcome : Option String
  confidence : Option String
  final_score : Option PyVal
  rest : List (String × String)
deriving DecidableEq

/-! ## engine/analytics.py — compute_pattern_insights -/

/-- `norm_type`. -/
def norm_type (x : Option String) : String :=
  let s := pyStrip (x.getD "")
  if s == "" then "Unknown" else s

/-- `norm_conf`. -/
def norm_conf (x : Option String) : String :=
  pyUpper (pyStrip (x.getD ""))

/-- `conf_to_p`: confidence label → expected probability. -/
def conf_to_p (conf : Option String) : ℚ :=
  let c := norm_conf conf
  if c == "HIGH" then 4/5
  else if c == "MEDIUM" then 3/5
  else if c == "LOW" then 2/5
  else 3/5

/-- `follow_to_success`: follow-up outcome → numeric success. -/
def follow_to_success (outcome : Option String) : Option ℚ :=
  let o := pyLower (pyStrip (outcome.getD ""))
  if o == "success" then some 1
  else if o == "partial success" then some (1/2)
  else if o == "failure" then some 0
  else none

/-- The per-type accumulator dict entry of `compute_pattern_insights`. -/
structure Bucket where
  count : ℕ
  avg_score_sum : ℚ
  avg_score_n : ℕ
  spread_sum : ℚ
  spread_n : ℕ
  followups_n : ℕ
  success_sum : ℚ
  conf_sum : ℚ
deriving DecidableEq

def emptyBucket : Bucket := ⟨0, 0, 0, 0, 0, 0, 0, 0⟩

/-- The loop body of `compute_pattern_insights` for one record. -/
def bucketStep (r : DecisionRecord) (b : Bucket) : Bucket :=
  let b := { b with count := b.count + 1 }
  let b := match tryFloat (r.final_score.getD (.num 0)) with
    | some s => { b with avg_score_sum := b.avg_score_sum + s, avg_score_n := b.avg_score_n + 1 }
    | none => b
  let spread := match r.scenario_stress_test with
    | some s => s.spread
    | none => none
  let b := match spread with
    | some v =>
        match tryFloat v with
        | some sp => { b with spread_sum := b.spread_sum + sp, spread_n := b.spread_n + 1 }
        | none => b
    | none => b
  let fuOutcome := match r.follow_up with
    | some fu => fu.outcome
    | none => none
  match follow_to_success fuOutcome with
  | some actual =>
      { b with followups_n := b.followups_n + 1,
               success_sum := b.success_sum + actual,
               conf_sum := b.conf_sum + conf_to_p r.confidence }
  | none => b

/-- `by_type.setdefault` followed by the in-place bucket update: the first
entry with the key is updated, a missing key is appended at the end
(Python dict insertion order). -/
def bumpBucket (k : String) (f : Bucket → Bucket) : List (String × Bucket) → List (String × Bucket)
  | [] => [(k, f emptyBucket)]
  | (k0, b0) :: rest =>
      if k0 == k then (k0, f b0) :: rest else (k0, b0) :: bumpBucket k f rest

/-- The accumulation loop of `compute_pattern_insights`. -/
def buildBuckets (records : List DecisionRecord) : List (String × Bucket) :=
  records.foldl (fun acc r => bumpBucket (norm_type r.decision_type) (bucketStep r) acc) []

/-- One row of the `compute_pattern_insights` output. -/
structure InsightRow where
  ty : String
  decisions : ℕ
  followUps : ℕ
  avgScore : Option ℚ
  avgSpread : Option ℚ
  actualRate : Option ℚ
  expectedRate : Option ℚ
  calibrationGap : Option ℚ
  signal : String
deriving DecidableEq

/-- The (un-rounded) calibration gap of a bucket: actual success rate minus
confidence-derived expected rate. -/
def bucketGap (b : Bucket) : ℚ :=
  b.success_sum / b.followups_n - b.conf_sum / b.followups_n

/-- The finalize loop body of `compute_pattern_insights`: note that the
signal is classified on the *un-rounded* gap while the reported gap is
rounded to 2 decimals. -/
def finalizeBucket (t : String) (b : Bucket) : InsightRow :=
  let avgScore := if b.avg_score_n ≠ 0 then some (roundTo2 (b.avg_score_sum / b.avg_score_n)) else none
  let avgSpread := if b.spread_n ≠ 0 then some (roundTo2 (b.spread_sum / b.spread_n)) else none
  if b.followups_n ≠ 0 then
    let actual_rate := b.success_sum / b.followups_n
    let expected_rate := b.conf_sum / b.followups_n
    let calibration_gap := actual_rate - expected_rate
    { ty := t, decisions := b.count, followUps := b.followups_n
      avgScore := avgScore, avgSpread := avgSpread
      actualRate := some (roundTo2 actual_rate)
      expectedRate := some (roundTo2 expected_rate)
      calibrationGap := some (roundTo2 calibration_gap)
      signal :=
        if calibration_gap > 1/10 then "UNDERCONFIDENT"
        else if calibration_gap < -(1/10) then "OVERCONFIDENT"
        else "CALIBRATED" }
  else
    { ty := t, decisions := b.count, followUps := 0
      avgScore := avgScore, avgSpread := avgSpread
      actualRate := none, expectedRate := none, calibrationGap := none
      signal := "NEED FOLLOW-UPS" }

/-- `compute_pattern_insights` (its `rows` output). -/
def compute_pattern_insights (records : List DecisionRecord) : List InsightRow :=
  (buildBuckets records).map (fun p => finalizeBucket p.1 p.2)

/-! ## C8 — calibration signal classification -/

/-- C8: every decision-type bucket with at least one follow-up is given
Signal UNDERCONFIDENT exactly when its calibration gap (actual success rate
minus confidence-derived expected rate) exceeds 0.10, OVERCONFIDENT exactly
when the gap is below −0.10, and CALIBRATED otherwise; every bucket with
zero follow-ups is given Signal NEED FOLLOW-UPS with null rate fields. -/
theorem c8_signal_classification (records : List DecisionRecord) (t : String) (b : Bucket)
    (h : (t, b) ∈ buildBuckets records) :
    finalizeBucket t b ∈ compute_pattern_insights records ∧
      (b.followups_n ≠ 0 →
        (finalizeBucket t b).followUps = b.followups_n ∧
        ((finalizeBucket t b).signal = "UNDERCONFIDENT" ↔ bucketGap b > 1/10) ∧
        ((finalizeBucket t b).signal = "OVERCONFIDENT" ↔ bucketGap b < -(1/10)) ∧
        ((finalizeBucket t b).signal = "CALIBRATED" ↔
          (-(1/10) ≤ bucketGap b ∧ bucketGap b ≤ 1/10))) ∧
      (b.followups_n = 0 →
        (finalizeBucket t b).followUps = 0 ∧
        (finalizeBucket t b).signal = "NEED FOLLOW-UPS" ∧
        (finalizeBucket t b).actualRate = none ∧
        (finalizeBucket t b).expectedRate = none ∧
        (finalizeBucket t b).calibrationGap = none) := by
  refine ⟨List.mem_map_of_mem (fun p => finalizeBucket p.1 p.2) h, ?_, ?_⟩
  · intro hne
    have hfu : (finalizeBucket t b).followUps = b.followups_n := by
      simp only [finalizeBucket]
      rw [if_pos hne]
    have hsig : (finalizeBucket t b).signal =
        (if bucketGap b > 1/10 then "UNDERCONFIDENT"
         else if bucketGap b < -(1/10) then "OVERCONFIDENT" else "CALIBRATED") := by
      simp only [finalizeBucket]
      rw [if_pos hne]
      rfl
    refine ⟨hfu, ?_, ?_, ?_⟩ <;> rw [hsig]
    · by_cases h1 : bucketGap b > 1/10
      · rw [if_pos h1]; exact iff_of_true rfl h1
      · rw [if_neg h1]
        by_cases h2 : bucketGap b < -(1/10)
        · rw [if_pos h2]; exact iff_of_false (by decide) h1
        · rw [if_neg h2]; exact iff_of_false (by decide) h1
    · by_cases h1 : bucketGap b > 1/10
      · rw [if_pos h1]
        refine iff_of_false (by decide) ?_
        intro h2; linarith
      · rw [if_neg h1]
        by_cases h2 : bucketGap b < -(1/10)
        · rw [if_pos h2]; exact iff_of_true rfl h2
        · rw [if_neg h2]; exact iff_of_false (by decide) h2
    · by_cases h1 : bucketGap b > 1/10
      · rw [if_pos h1]
        refine iff_of_false (by decide) ?_
        intro hc; linarith [hc.2]
      · rw [if_neg h1]
        by_cases h2 : bucketGap b < -(1/10)
        · rw [if_pos h2]
          refine iff_of_false (by decide) ?_
          intro hc; linarith [hc.1]
        · rw [if_neg h2]
          push_neg at h1 h2
          exact iff_of_true rfl ⟨h2, h1⟩
  · intro hz
    simp only [finalizeBucket]
    rw [if_neg (fun hk => hk hz)]
    exact ⟨rfl, rfl, rfl, rfl, rfl⟩

/-- A concrete record: type Strategic, final score 8, spread 2, HIGH
confidence, follow-up Success. -/
def c8Rec : DecisionRecord :=
  { decision_id := some "dec_000000000001"
    title := some "Price increase"
    schema_version := some 2
    assumptions := some ["Differentiation remains strong"]
    unknowns := some ["Churn impact"]
    assumptions_notes := some ""
    unknowns_notes := some ""
    scenario_stress_test := some ⟨some (.num 2)⟩
    decision_type := some "Strategic"
    decision_owner := some "Alice"
    stakeholders := some ["Sales"]
    review_date := some "2026-01-01"
    follow_up := some ⟨some "Success", some "went well", some "2026-02-01T00:00:00Z"⟩
    outcome := some "PROCEED"
    confidence := some "HIGH"
    final_score := some (.num 8)
    rest := [] }

/-- C8 (witness): on the one-record history `[c8Rec]` the Strategic bucket
has gap 1 − 0.8 = 0.2 > 0.10 and is classified UNDERCONFIDENT. -/
theorem c8_witness :
    finalizeBucket "Strategic" (bucketStep c8Rec emptyBucket) ∈ compute_pattern_insights [c8Rec] ∧
      (finalizeBucket "Strategic" (bucketStep c8Rec emptyBucket)).signal = "UNDERCONFIDENT" ∧
      bucketGap (bucketStep c8Rec emptyBucket) > 1/10 := by
  have hmem : ("Strategic", bucketStep c8Rec emptyBucket) ∈ buildBuckets [c8Rec] := by
    rw [show buildBuckets [c8Rec] = [("Strategic", bucketStep c8Rec emptyBucket)] from rfl]
    exact List.mem_singleton.mpr rfl
  have h := c8_signal_classification [c8Rec] "Strategic" (bucketStep c8Rec emptyBucket) hmem
  have hb : bucketStep c8Rec emptyBucket =
      ({ count := 1, avg_score_sum := 0 + 8, avg_score_n := 1, spread_sum := 0 + 2, spread_n := 1,
         followups_n := 1, success_sum := 0 + 1, conf_sum := 0 + 4/5 } : Bucket) := rfl
  have hgap : bucketGap (bucketStep c8Rec emptyBucket) > 1/10 := by
    rw [hb, bucketGap]
    norm_num
  have hne : (bucketStep c8Rec emptyBucket).followups_n ≠ 0 := by rw [hb]; norm_num
  exact ⟨h.1, ((h.2.1 hne).2.1).mpr hgap, hgap⟩

/-! ## engine/storage.py -/

/-- One line of the history file: a line parsing to a JSON object, or a
blank/unparsable line, which `read_jsonl` silently skips.  (Lines parsing
to non-object JSON values never occur in a history file: every writer in
`storage.py` serializes dict records.) -/
inductive JsonLine where
  | obj (r : DecisionRecord)
  | junk (s : String)
deriving DecidableEq

/-- The records of a file's lines, in order, skipping junk lines. -/
def parsedRecords (lines : List JsonLine) : List DecisionRecord :=
  lines.filterMap (fun l => match l with
    | .obj r => some r
    | .junk _ => none)

/-- `read_jsonl(path, limit)`: parse every line, skip blank/malformed ones,
return `rows[-limit:]`. -/
def read_jsonl (lines : List JsonLine) (limit : ℕ) : List DecisionRecord :=
  lastN limit (parsedRecords lines)

/-- The update loop of `update_decision_outcome`: attach the follow-up to
the first record whose `decision_id` matches, then `break`. -/
def setFollowUpFirst (decision_id outcome notes now : String) :
    List DecisionRecord → List DecisionRecord × Bool
  | [] => ([], false)
  | r :: rs =>
      if r.decision_id == some decision_id then
        ({ r with follow_up := some ⟨some outcome, some notes, some now⟩ } :: rs, true)
      else
        let p := setFollowUpFirst decision_id outcome notes now rs
        (r :: p.1, p.2)

/-- `update_decision_outcome`: reads the last 5000 records, updates the
first match in place and — only when a match was found — rewrites the whole
file with exactly those rows (`now` stands for `now_iso()`).  Returns the
`updated` flag together with the resulting file content. -/
def update_decision_outcome (lines : List JsonLine)
    (decision_id outcome notes now : String) : Bool × List JsonLine :=
  let rows := read_jsonl lines 5000
  let p := setFollowUpFirst decision_id outcome notes now rows
  if p.2 then (true, p.1.map JsonLine.obj) else (false, lines)

theorem setFollowUpFirst_not_found (decision_id outcome notes now : String)
    (l : List DecisionRecord) (h : ∀ r ∈ l, r.decision_id ≠ some decision_id) :
    setFollowUpFirst decision_id outcome notes now l = (l, false) := by
  induction l with
  | nil => rfl
  | cons hd tl ih =>
    have hbeq : (hd.decision_id == some decision_id) = false :=
      beq_eq_false_iff_ne.mpr (h hd (List.mem_cons_self hd tl))
    have htl := ih (fun r hr => h r (List.mem_cons_of_mem _ hr))
    simp [setFollowUpFirst, hbeq, htl]

/-! ## C6 — update on an unknown id -/

/-- C6: for every history file and every decision id matching no record of
the file, `update_decision_outcome` returns `False` and the stored file is
unchanged (no write is performed). -/
theorem c6_update_not_found (lines : List JsonLine)
    (decision_id outcome notes now : String)
    (h : ∀ r ∈ parsedRecords lines, r.decision_id ≠ some decision_id) :
    update_decision_outcome lines decision_id outcome notes now = (false, lines) := by
  have hsub : ∀ r ∈ read_jsonl lines 5000, r.decision_id ≠ some decision_id := by
    intro r hr
    exact h r (List.drop_subset _ _ hr)
  have hset := setFollowUpFirst_not_found decision_id outcome notes now _ hsub
  simp [update_decision_outcome, hset]

def c6Rec : DecisionRecord :=
  { decision_id := some "dec_0a"
    title := some "Launch"
    schema_version := some 2
    assumptions := some []
    unknowns := some []
    assumptions_notes := some ""
    unknowns_notes := some ""
    scenario_stress_test := some ⟨some (.num 1)⟩
    decision_type := some "Operational"
    decision_owner := some "Carol"
    stakeholders := some []
    review_date := some ""
    follow_up := none
    outcome := some "PROCEED"
    confidence := some "MEDIUM"
    final_score := some (.num 7)
    rest := [] }

def c6File : List JsonLine := [.obj c6Rec, .junk ""]

/-- C6 (witness): the theorem at a concrete one-record file and an id that
matches nothing. -/
theorem c6_witness :
    update_decision_outcome c6File "dec_0b" "Success" "notes" "2026-03-01T00:00:00Z" =
      (false, c6File) := by
  refine c6_update_not_found c6File "dec_0b" "Success" "notes" "2026-03-01T00:00:00Z" ?_
  intro r hr
  rw [show parsedRecords c6File = [c6Rec] from rfl] at hr
  rw [List.mem_singleton.mp hr]
  decide

/-! ## C10 — the 5000-record window of update_decision_outcome -/

theorem setFollowUpFirst_found (decision_id outcome notes now : String)
    (l : List DecisionRecord)
    (h : l.any (fun r => r.decision_id == some decision_id) = true) :
    (setFollowUpFirst decision_id outcome notes now l).2 = true := by
  induction l with
  | nil => simp at h
  | cons hd tl ih =>
    by_cases hhd : (hd.decision_id == some decision_id) = true
    · simp [setFollowUpFirst, hhd]
    · have hb : (hd.decision_id == some decision_id) = false := by
        simpa using hhd
      simp only [List.any_cons, hb, Bool.false_or] at h
      simp [setFollowUpFirst, hb, ih h]

theorem setFollowUpFirst_length (decision_id outcome notes now : String)
    (l : List DecisionRecord) :
    (setFollowUpFirst decision_id outcome notes now l).1.length = l.length := by
  induction l with
  | nil => rfl
  | cons hd tl ih =>
    by_cases hhd : (hd.decision_id == some decision_id) = true
    · simp [setFollowUpFirst, hhd]
    · have hb : (hd.decision_id == some decision_id) = false := by simpa using hhd
      simp [setFollowUpFirst, hb, ih]

theorem parsedRecords_map_obj (l : List DecisionRecord) :
    parsedRecords (l.map JsonLine.obj) = l := by
  induction l with
  | nil => rfl
  | cons hd tl ih => simp [parsedRecords, List.filterMap_cons] at ih ⊢; exact ih

/-- C10: `update_decision_outcome` operates on at most the last 5000 records
of the file: when the id matches none of those, it reports not-found and
leaves the file unchanged (even if the id occurs in earlier records); when
it matches one of them, it returns `True` and the rewritten file consists of
exactly those (at most 5000, first match updated) records — every earlier
record and every unparsable line is discarded. -/
theorem c10_update_window (lines : List JsonLine)
    (decision_id outcome notes now : String) :
    ((lastN 5000 (parsedRecords lines)).all
        (fun r => !(r.decision_id == some decision_id)) = true →
      update_decision_outcome lines decision_id outcome notes now = (false, lines)) ∧
    ((lastN 5000 (parsedRecords lines)).any
        (fun r => r.decision_id == some decision_id) = true →
      update_decision_outcome lines decision_id outcome notes now =
        (true, ((setFollowUpFirst decision_id outcome notes now
          (lastN 5000 (parsedRecords lines))).1).map JsonLine.obj) ∧
      parsedRecords (((setFollowUpFirst decision_id outcome notes now
          (lastN 5000 (parsedRecords lines))).1).map JsonLine.obj) =
        (setFollowUpFirst decision_id outcome notes now
          (lastN 5000 (parsedRecords lines))).1 ∧
      (setFollowUpFirst decision_id outcome notes now
          (lastN 5000 (parsedRecords lines))).1.length =
        (lastN 5000 (parsedRecords lines)).length) := by
  constructor
  · intro hall
    have hne : ∀ r ∈ lastN 5000 (parsedRecords lines), r.decision_id ≠ some decision_id := by
      intro r hr
      have := List.all_eq_true.mp hall r hr
      simpa using this
    have hset := setFollowUpFirst_not_found decision_id outcome notes now _ hne
    simp [update_decision_outcome, read_jsonl, hset]
  · intro hany
    have hfound := setFollowUpFirst_found decision_id outcome notes now _ hany
    refine ⟨?_, parsedRecords_map_obj _, setFollowUpFirst_length decision_id outcome notes now _⟩
    simp [update_decision_outcome, read_jsonl, hfound]

def c10RecA : DecisionRecord :=
  { decision_id := some "dec_w1"
    title := some "Alpha"
    schema_version := some 2
    assumptions := some []
    unknowns := some []
    assumptions_notes := some ""
    unknowns_notes := some ""
    scenario_stress_test := none
    decision_type := some "Operational"
    decision_owner := some "Dale"
    stakeholders := some []
    review_date := some ""
    follow_up := none
    outcome := some "PROCEED"
    confidence := some "LOW"
    final_score := some (.num 4)
    rest := [] }

def c10FileA : List JsonLine := [.obj c10RecA]

def c10RecB : DecisionRecord :=
  { c10RecA with decision_id := some "dec_w2", title := some "Beta" }

def c10FileB : List JsonLine := [.junk "not json", .obj c10RecB]

/-- C10 (witness): the theorem applied to two concrete files — one where the
id matches nothing (returns `False`, file untouched) and one where it
matches (returns `True` and the file is rewritten as the serialized updated
window). -/
theorem c10_witness :
    update_decision_outcome c10FileA "dec_w0" "Success" "n" "2026-04-01T00:00:00Z" =
      (false, c10FileA) ∧
    update_decision_outcome c10FileB "dec_w2" "Success" "n" "2026-04-01T00:00:00Z" =
      (true, ((setFollowUpFirst "dec_w2" "Success" "n" "2026-04-01T00:00:00Z"
        (lastN 5000 (parsedRecords c10FileB))).1).map JsonLine.obj) := by
  constructor
  · exact (c10_update_window c10FileA "dec_w0" "Success" "n" "2026-04-01T00:00:00Z").1
      (by decide)
  · exact ((c10_update_window c10FileB "dec_w2" "Success" "n" "2026-04-01T00:00:00Z").2
      (by decide)).1

/-! ## engine/storage.py — migrate_history_schema -/

/-- The per-record body of the migration loop: force `schema_version` to the
target (counting the record as updated only when it actually changed), fill
every missing expected field with its documented default, and normalize the
`follow_up` sub-fields when a follow-up exists. -/
def migrateRecord (target : ℤ) (r : DecisionRecord) : DecisionRecord × Bool :=
  let changed := !(r.schema_version == some target)
  let fu := match r.follow_up with
    | some f => some (FollowUp.mk (some (f.outcome.getD "")) (some (f.notes.getD ""))
        (some (f.updated_at_utc.getD "")))
    | none => none
  ({ r with
      schema_version := some target
      assumptions := some (r.assumptions.getD [])
      unknowns := some (r.unknowns.getD [])
      assumptions_notes := some (r.assumptions_notes.getD "")
      unknowns_notes := some (r.unknowns_notes.getD "")
      scenario_stress_test := some (r.scenario_stress_test.getD ⟨none⟩)
      decision_type := some (r.decision_type.getD "Unknown")
      decision_owner := some (r.decision_owner.getD "")
      stakeholders := some (r.stakeholders.getD [])
      review_date := some (r.review_date.getD "")
      follow_up := fu }, changed)

structure MigStats where
  total : ℕ
  updated : ℕ
  written : ℕ
deriving DecidableEq

/-- `migrate_history_schema`: read all records (limit 10,000,000), migrate
each with `migrateRecord` (collecting the migrated rows and counting the
updated ones), rewrite the file with exactly the migrated records; on an
empty row set the file is left unwritten.  The `isinstance(r, dict)` skip of
the source is vacuous here because a history file's parsable lines are JSON
objects. -/
def migrate_history_schema (lines : List JsonLine) (target : ℤ) : List JsonLine × MigStats :=
  if (read_jsonl lines 10000000).isEmpty then (lines, ⟨0, 0, 0⟩)
  else
    (((read_jsonl lines 10000000).map (fun r => (migrateRecord target r).1)).map JsonLine.obj,
     ⟨(read_jsonl lines 10000000).length,
      ((read_jsonl lines 10000000).filter (fun r => (migrateRecord target r).2)).length,
      ((read_jsonl lines 10000000).map (fun r => (migrateRecord target r).1)).length⟩)

/-! ## C5 — idempotence of the migration -/

theorem migrateRecord_idem (target : ℤ) (r : DecisionRecord) :
    migrateRecord target (migrateRecord target r).1 = ((migrateRecord target r).1, false) := by
  cases hf : r.follow_up <;> simp [migrateRecord, hf]

theorem lastN_length_le {α : Type} (n : ℕ) (l : List α) : (lastN n l).length ≤ n := by
  simp only [lastN, List.length_drop]
  omega

theorem lastN_of_le {α : Type} {n : ℕ} {l : List α} (h : l.length ≤ n) : lastN n l = l := by
  simp only [lastN]
  rw [Nat.sub_eq_zero_of_le h, List.drop_zero]

theorem map_migrate_idem (target : ℤ) (l : List DecisionRecord)
    (h : ∀ x ∈ l, migrateRecord target x = (x, false)) :
    l.map (fun r => (migrateRecord target r).1) = l := by
  induction l with
  | nil => rfl
  | cons hd tl ih =>
    have hh := h hd (List.mem_cons_self hd tl)
    have htl := ih (fun x hx => h x (List.mem_cons_of_mem _ hx))
    simp only [List.map_cons, hh, htl]

theorem filter_migrate_idem (target : ℤ) (l : List DecisionRecord)
    (h : ∀ x ∈ l, migrateRecord target x = (x, false)) :
    l.filter (fun r => (migrateRecord target r).2) = [] := by
  induction l with
  | nil => rfl
  | cons hd tl ih =>
    have hh := h hd (List.mem_cons_self hd tl)
    have htl := ih (fun x hx => h x (List.mem_cons_of_mem _ hx))
    simp only [List.filter_cons, hh, htl]
    rfl

/-- C5: running the migration twice with the same target on the same file is
idempotent — the second run leaves the stored records identical to the first
run's output and reports `updated = 0` with `total` and `written` both equal
to the stored record count. -/
theorem c5_migrate_idempotent (lines : List JsonLine) (target : ℤ) :
    migrate_history_schema (migrate_history_schema lines target).1 target =
      ((migrate_history_schema lines target).1,
        ⟨(read_jsonl (migrate_history_schema lines target).1 10000000).length, 0,
         (read_jsonl (migrate_history_schema lines target).1 10000000).length⟩) := by
  by_cases hemp : (read_jsonl lines 10000000).isEmpty
  · have h1 : migrate_history_schema lines target = (lines, ⟨0, 0, 0⟩) := by
      rw [migrate_history_schema, if_pos hemp]
    have hlen : (read_jsonl lines 10000000).length = 0 :=
      List.isEmpty_iff_length_eq_zero.mp hemp
    rw [h1]
    rw [migrate_history_schema, if_pos hemp, hlen]
  · have h1 : migrate_history_schema lines target =
        (((read_jsonl lines 10000000).map (fun r => (migrateRecord target r).1)).map JsonLine.obj,
         ⟨(read_jsonl lines 10000000).length,
          ((read_jsonl lines 10000000).filter (fun r => (migrateRecord target r).2)).length,
          ((read_jsonl lines 10000000).map (fun r => (migrateRecord target r).1)).length⟩) := by
      rw [migrate_history_schema, if_neg hemp]
    set out1 := (read_jsonl lines 10000000).map (fun r => (migrateRecord target r).1) with hout1
    have hreread : read_jsonl (out1.map JsonLine.obj) 10000000 = out1 := by
      rw [read_jsonl, parsedRecords_map_obj]
      exact lastN_of_le (by
        rw [hout1, List.length_map]
        exact le_trans (lastN_length_le _ _) (by norm_num))
    have hidem : ∀ x ∈ out1, migrateRecord target x = (x, false) := by
      intro x hx
      rw [hout1] at hx
      obtain ⟨r0, _, rfl⟩ := List.mem_map.mp hx
      exact migrateRecord_idem target r0
    have hout2 : out1.map (fun r => (migrateRecord target r).1) = out1 :=
      map_migrate_idem target out1 hidem
    have hupd2 : out1.filter (fun r => (migrateRecord target r).2) = [] :=
      filter_migrate_idem target out1 hidem
    have hne2 : ¬ (read_jsonl (out1.map JsonLine.obj) 10000000).isEmpty = true := by
      rw [hreread, hout1]
      cases h : read_jsonl lines 10000000 with
      | nil => rw [h] at hemp; exact absurd rfl hemp
      | cons a as => simp
    rw [h1]
    dsimp only
    rw [migrate_history_schema, if_neg hne2]
    rw [hreread, hout2, hupd2]
    rfl
